import Mathlib

/-!
Shallow embedding of `src/spmatrix.py` (class `SparseMatrix`).

Python dicts are modelled as insertion-ordered association lists with
integer keys: lookup returns the first binding of a key, assignment to an
existing key updates it in place, assignment to a fresh key appends.
Files are modelled as lists of lines (without their trailing newlines);
the uniform `ValueError("Input file has wrong format: ...")` raised by
`load_matrix` is modelled as `Except.error ()`.
-/

namespace SpMatrix

/-- Lookup in a Python-dict-like association list: first binding wins. -/
def dget {α : Type} : List (Int × α) → Int → Option α
  | [], _ => none
  | p :: d, k => if p.1 = k then some p.2 else dget d k

/-- Assignment `d[k] = v` on a Python-dict-like association list:
updates the existing binding in place, otherwise appends. -/
def dsetKV {α : Type} (d : List (Int × α)) (k : Int) (v : α) : List (Int × α) :=
  if d.any (fun p => p.1 == k) then
    d.map (fun p => if p.1 = k then (k, v) else p)
  else d ++ [(k, v)]

/-- The nested store `self.matrix`: row index ↦ (column index ↦ value). -/
abbrev Store : Type := List (Int × List (Int × Int))

/-- The raw stored entry at (row, col): `none` when no entry is stored. -/
def sget (st : Store) (row col : Int) : Option Int :=
  (dget st row).bind (fun rd => dget rd col)

/-- The store update shared by `set_element` and the load loop:
`if row not in matrix: matrix[row] = {}` then `matrix[row][col] = value`. -/
def storeSet (st : Store) (row col value : Int) : Store :=
  match dget st row with
  | none => st ++ [(row, [(col, value)])]
  | some rd => dsetKV st row (dsetKV rd col value)

/-- `SparseMatrix`: the entry store plus the two dimension attributes. -/
structure SparseMatrix where
  matrix : Store
  numRows : Int
  numCols : Int
deriving DecidableEq

/-- Dimension mode of `SparseMatrix.__init__`: empty store, dimensions
taken verbatim from the arguments. -/
def initWithDims (numRows numCols : Int) : SparseMatrix :=
  { matrix := [], numRows := numRows, numCols := numCols }

/-- `get_element`: `self.matrix.get(row, {}).get(col, 0)`. -/
def SparseMatrix.get_element (m : SparseMatrix) (row col : Int) : Int :=
  match dget m.matrix row with
  | none => 0
  | some rd => (dget rd col).getD 0

/-- `set_element`: create the row dict if absent, then assign the cell. -/
def SparseMatrix.set_element (m : SparseMatrix) (row col value : Int) : SparseMatrix :=
  { m with matrix := storeSet m.matrix row col value }

/-- Python `str.strip()`: remove leading and trailing whitespace. -/
def pyStrip (cs : List Char) : List Char :=
  ((cs.dropWhile Char.isWhitespace).reverse.dropWhile Char.isWhitespace).reverse

/-- Python `str.split(sep)` for a one-character separator: split at every
occurrence, keeping empty pieces; the result is always nonempty. -/
def pySplit (sep : Char) : List Char → List (List Char)
  | [] => [[]]
  | c :: cs =>
    match pySplit sep cs with
    | [] => [[c]]
    | piece :: pieces =>
      if c = sep then [] :: piece :: pieces else (c :: piece) :: pieces

/-- The value of a nonempty all-digit string, most significant first. -/
def digitsVal (cs : List Char) : Nat :=
  cs.foldl (fun acc c => acc * 10 + (c.toNat - Char.toNat '0')) 0

/-- Python `int(s)` on a character list: optional sign followed by a
nonempty digit string; fails otherwise. -/
def pyInt (cs : List Char) : Option Int :=
  let t := pyStrip cs
  match t with
  | '-' :: rest =>
    if rest ≠ [] ∧ rest.all Char.isDigit then some (-(digitsVal rest : Int)) else none
  | '+' :: rest =>
    if rest ≠ [] ∧ rest.all Char.isDigit then some ((digitsVal rest : Int)) else none
  | _ => if t ≠ [] ∧ t.all Char.isDigit then some ((digitsVal t : Int)) else none

/-- One header line: `int(line.split('=')[1])`; `none` when there is no
`=` in the line or the text after the first `=` is not an integer. -/
def parseHeader (line : String) : Option Int :=
  match (pySplit '=' line.data).get? 1 with
  | none => none
  | some s => pyInt s

/-- `parse_entry`: strip the line, drop its first and last character,
split on commas, and parse the first three components as integers
(`int(entry[0]), int(entry[1]), int(entry[2])`); any missing or
non-integer component is a failure. Components beyond the third are
ignored, exactly as in the source. -/
def parse_entry (line : String) : Option (Int × Int × Int) :=
  let entry := pySplit ',' (((pyStrip line.data).drop 1).dropLast)
  match entry.get? 0, entry.get? 1, entry.get? 2 with
  | some a, some b, some c =>
    (match pyInt a, pyInt b, pyInt c with
     | some r, some co, some v => some (r, co, v)
     | _, _, _ => none)
  | _, _, _ => none

/-- The entry loop of `load_matrix`: skip blank lines (`if line.strip():`),
parse the rest, last write wins via `storeSet`; any parse failure aborts. -/
def loadEntries : Store → List String → Option Store
  | st, [] => some st
  | st, line :: rest =>
    if pyStrip line.data = [] then loadEntries st rest
    else
      match parse_entry line with
      | none => none
      | some (r, c, v) => loadEntries (storeSet st r c v) rest

/-- `load_matrix`: read the two header lines, then the entries; every
failure anywhere is caught and surfaces as the one uniform wrong-format
error. Returns the store together with the header-derived `rows`/`cols`
that the method assigns to `self.numRows`/`self.numCols` before
`__init__` overwrites them. -/
def load_matrix (lines : List String) : Except Unit (Store × Int × Int) :=
  match lines with
  | line1 :: line2 :: rest =>
    (match parseHeader line1, parseHeader line2 with
     | some rows, some cols =>
       (match loadEntries [] rest with
        | some st => Except.ok (st, rows, cols)
        | none => Except.error ())
     | _, _ => Except.error ())
  | _ => Except.error ()

/-- File mode of `SparseMatrix.__init__`: load the store, then set
`numRows = self.matrix.get(0, {}).get(0, 0)` and
`numCols = self.matrix.get(0, {}).get(1, 0)`. -/
def initFromFile (lines : List String) : Except Unit SparseMatrix :=
  match load_matrix lines with
  | Except.error e => Except.error e
  | Except.ok (st, _, _) =>
    Except.ok
      { matrix := st
      , numRows := (dget ((dget st 0).getD []) 0).getD 0
      , numCols := (dget ((dget st 0).getD []) 1).getD 0 }

/-- The row-major traversal order of the two nested `for` loops of
`add`/`subtract`: all (row, col) with row < rows, col < cols. -/
def grid (rows cols : Nat) : List (Nat × Nat) :=
  (List.range rows).flatMap (fun r => (List.range cols).map (fun c => (r, c)))

/-- `add`: fresh result with `self`'s dimensions; every cell of the
`[0, numRows) × [0, numCols)` grid is set to the sum of the operands'
values there. -/
def SparseMatrix.add (a b : SparseMatrix) : SparseMatrix :=
  (grid a.numRows.toNat a.numCols.toNat).foldl
    (fun result p =>
      result.set_element (p.1 : Int) (p.2 : Int)
        (a.get_element (p.1 : Int) (p.2 : Int) + b.get_element (p.1 : Int) (p.2 : Int)))
    (initWithDims a.numRows a.numCols)

/-- `subtract`: same traversal as `add`, with the difference stored. -/
def SparseMatrix.subtract (a b : SparseMatrix) : SparseMatrix :=
  (grid a.numRows.toNat a.numCols.toNat).foldl
    (fun result p =>
      result.set_element (p.1 : Int) (p.2 : Int)
        (a.get_element (p.1 : Int) (p.2 : Int) - b.get_element (p.1 : Int) (p.2 : Int)))
    (initWithDims a.numRows a.numCols)

/-- `multiply`: raise when `self.numCols != other.numRows`; otherwise
iterate `self`'s row keys against `other`'s row keys (the column-key
proxy of the source), and where `col in self.matrix[row]`, store the
dense dot product over `range(self.numCols)`. The `none` inner branch is
unreachable: `rp.1` is a key iterated from `a.matrix` itself. -/
def SparseMatrix.multiply (a b : SparseMatrix) : Except Unit SparseMatrix :=
  if a.numCols ≠ b.numRows then Except.error ()
  else
    Except.ok
      (a.matrix.foldl
        (fun result rp =>
          b.matrix.foldl
            (fun result cp =>
              match dget a.matrix rp.1 with
              | none => result
              | some rd =>
                if (dget rd cp.1).isSome then
                  result.set_element rp.1 cp.1
                    (((List.range a.numCols.toNat).map
                        (fun k => a.get_element rp.1 (k : Int) * b.get_element (k : Int) cp.1)).sum)
                else result)
            result)
        (initWithDims a.numRows b.numCols))

/-- `save_to_file`: the two header lines, then one
`(<row>, <col>, <value>)` line per stored entry in store iteration
order. -/
def SparseMatrix.save_to_file (m : SparseMatrix) : List String :=
  ("rows=" ++ toString m.numRows) :: ("cols=" ++ toString m.numCols) ::
    m.matrix.flatMap (fun rp =>
      rp.2.map (fun cp =>
        "(" ++ toString rp.1 ++ ", " ++ toString cp.1 ++ ", " ++ toString cp.2 ++ ")"))

instance {ε α : Type} [DecidableEq ε] [DecidableEq α] : DecidableEq (Except ε α) :=
  fun a b =>
    match a, b with
    | Except.error e, Except.error f => decidable_of_iff (e = f) (by simp)
    | Except.ok x, Except.ok y => decidable_of_iff (x = y) (by simp)
    | Except.error _, Except.ok _ => isFalse (by simp)
    | Except.ok _, Except.error _ => isFalse (by simp)

/-- The set of inputs `load_matrix` accepts: two parsable header lines
followed by data lines each of which is blank or parses as an entry. -/
def loadAccepts : List String → Prop :=
  fun lines =>
    match lines with
    | line1 :: line2 :: rest =>
      (parseHeader line1).isSome ∧ (parseHeader line2).isSome ∧
        ∀ l ∈ rest, pyStrip l.data ≠ [] → (parse_entry l).isSome
    | _ => False

/-! ### Concrete inputs used as witnesses and counterexamples -/

/-- The first input file of spec §8 property 7. -/
def fileA : List String :=
  ["rows=2", "cols=2", "(0,0,1)", "(0,1,2)", "(1,0,3)", "(1,1,4)"]

/-- The second input file of spec §8 property 7. -/
def fileB : List String :=
  ["rows=2", "cols=2", "(0,0,5)", "(1,1,6)"]

/-- What file-mode construction actually produces from `fileA`. -/
def matA : SparseMatrix :=
  { matrix := [(0, [(0, 1), (1, 2)]), (1, [(0, 3), (1, 4)])], numRows := 1, numCols := 2 }

/-- What file-mode construction actually produces from `fileB`. -/
def matB : SparseMatrix :=
  { matrix := [(0, [(0, 5)]), (1, [(1, 6)])], numRows := 5, numCols := 0 }

/-- A 2×3 matrix with the single entry (0, 0) ↦ 7, for the round-trip check. -/
def mRT : SparseMatrix := (initWithDims 2 3).set_element 0 0 7

/-- A file whose header dimensions (3, 4) differ from the entry values at
(0,0) and (0,1). -/
def hdrFile : List String := ["rows=3", "cols=4", "(0,0,1)", "(0,1,2)"]

/-- What file-mode construction produces from `hdrFile`. -/
def matHdr : SparseMatrix :=
  { matrix := [(0, [(0, 1), (1, 2)])], numRows := 1, numCols := 2 }

/-- A data line with four comma-separated components. -/
def fourFieldFile : List String := ["rows=2", "cols=2", "(0,0,1,9)"]

/-- A 2×2 matrix with the single entry (0, 1) ↦ 3. -/
def cA3 : SparseMatrix := (initWithDims 2 2).set_element 0 1 3

/-- A 2×2 matrix with the single entry (0, 1) ↦ 4. -/
def cB3 : SparseMatrix := (initWithDims 2 2).set_element 0 1 4

/-- A 2×2 matrix with the single entry (1, 0) ↦ 5. -/
def cA7 : SparseMatrix := (initWithDims 2 2).set_element 1 0 5

/-- An empty 1×1 matrix, dimension-mismatched with `cA7`. -/
def cB7 : SparseMatrix := initWithDims 1 1

/-- A 2×2 matrix with the single entry (0, 0) ↦ 4. -/
def mX : SparseMatrix := (initWithDims 2 2).set_element 0 0 4

/-! ### Laws of the dict model -/

theorem dget_append {α : Type} (d₁ d₂ : List (Int × α)) (k : Int) :
    dget (d₁ ++ d₂) k = ((dget d₁ k).rec (dget d₂ k) (fun v => some v)) := by
  induction d₁ with
  | nil => simp [dget]
  | cons p d ih =>
    by_cases h : p.1 = k <;> simp [dget, h, ih]

theorem dget_eq_none_of_not_any {α : Type} (d : List (Int × α)) (k : Int)
    (h : d.any (fun p => p.1 == k) = false) : dget d k = none := by
  induction d with
  | nil => rfl
  | cons p d ih =>
    simp only [List.any_cons, Bool.or_eq_false_iff, beq_eq_false_iff_ne] at h
    simp [dget, h.1, ih h.2]

theorem dget_map_update_self {α : Type} (d : List (Int × α)) (k : Int) (v : α)
    (h : d.any (fun p => p.1 == k) = true) :
    dget (d.map (fun p => if p.1 = k then (k, v) else p)) k = some v := by
  induction d with
  | nil => simp at h
  | cons p d ih =>
    by_cases hp : p.1 = k
    · simp [dget, hp]
    · simp only [List.any_cons, Bool.or_eq_true, beq_iff_eq, hp, false_or] at h
      simp [dget, hp, ih h]

theorem dget_map_update_ne {α : Type} (d : List (Int × α)) (k k' : Int) (v : α)
    (hne : k' ≠ k) :
    dget (d.map (fun p => if p.1 = k then (k, v) else p)) k' = dget d k' := by
  induction d with
  | nil => rfl
  | cons p d ih =>
    by_cases hp : p.1 = k
    · have : ¬ (k = k') := fun h => hne h.symm
      simp [dget, hp, this, ih, hp ▸ this]
    · by_cases hp' : p.1 = k' <;> simp [dget, hp, hp', ih, hne]

theorem dget_dsetKV_self {α : Type} (d : List (Int × α)) (k : Int) (v : α) :
    dget (dsetKV d k v) k = some v := by
  unfold dsetKV
  by_cases h : d.any (fun p => p.1 == k) = true
  · simp [h, dget_map_update_self d k v h]
  · have hn : d.any (fun p => p.1 == k) = false := by
      cases hx : d.any (fun p => p.1 == k) with
      | false => rfl
      | true => exact absurd hx h
    simp [hn, dget_append, dget_eq_none_of_not_any d k hn, dget]

theorem dget_dsetKV_ne {α : Type} (d : List (Int × α)) (k k' : Int) (v : α)
    (hne : k' ≠ k) : dget (dsetKV d k v) k' = dget d k' := by
  unfold dsetKV
  by_cases h : d.any (fun p => p.1 == k) = true
  · simp [h, dget_map_update_ne d k k' v hne]
  · have hn : d.any (fun p => p.1 == k) = false := by
      cases hx : d.any (fun p => p.1 == k) with
      | false => rfl
      | true => exact absurd hx h
    have : ¬ (k = k') := fun h => hne h.symm
    simp only [hn, Bool.false_eq_true, if_false, dget_append, dget, this, if_false]
    cases dget d k' <;> rfl

/-! ### Laws of the two-level store -/

theorem sget_storeSet_self (st : Store) (r c v : Int) :
    sget (storeSet st r c v) r c = some v := by
  unfold storeSet
  cases hr : dget st r with
  | none =>
    simp [sget, dget_append, hr, dget, dget_dsetKV_self]
  | some rd =>
    simp [sget, dget_dsetKV_self, dget_dsetKV_self rd c v]

theorem sget_storeSet_ne (st : Store) (r c v r' c' : Int)
    (hne : ¬ (r' = r ∧ c' = c)) :
    sget (storeSet st r c v) r' c' = sget st r' c' := by
  unfold storeSet
  by_cases hrr : r' = r
  · have hcc : c' ≠ c := fun h => hne ⟨hrr, h⟩
    cases hr : dget st r with
    | none =>
      subst hrr
      simp [sget, dget_append, hr, dget, hcc, Ne.symm hcc]
    | some rd =>
      subst hrr
      simp [sget, hr, dget_dsetKV_self, dget_dsetKV_ne rd c c' v hcc]
  · cases hr : dget st r with
    | none =>
      simp only [sget, dget_append, hr]
      have : dget ([(r, [(c, v)])] : Store) r' = none := by
        have hrs : r ≠ r' := fun h => hrr h.symm
        simp [dget, hrs]
      cases hg : dget st r' <;> simp [hg, this]
    | some rd =>
      simp [sget, dget_dsetKV_ne st r r' _ hrr]

theorem get_element_eq_sget (m : SparseMatrix) (r c : Int) :
    m.get_element r c = (sget m.matrix r c).getD 0 := by
  unfold SparseMatrix.get_element sget
  cases dget m.matrix r <;> rfl

/-! ### The dense grid traversal of add and subtract -/

theorem mem_grid (R C : Nat) (p : Nat × Nat) :
    p ∈ grid R C ↔ p.1 < R ∧ p.2 < C := by
  cases p with
  | mk r c => simp [grid]

theorem foldl_set_numRows (g : Int → Int → Int) (ps : List (Nat × Nat)) (m : SparseMatrix) :
    (ps.foldl
        (fun res p => res.set_element (p.1 : Int) (p.2 : Int) (g (p.1 : Int) (p.2 : Int)))
        m).numRows = m.numRows := by
  induction ps generalizing m with
  | nil => rfl
  | cons q qs ih => exact ih _

theorem foldl_set_numCols (g : Int → Int → Int) (ps : List (Nat × Nat)) (m : SparseMatrix) :
    (ps.foldl
        (fun res p => res.set_element (p.1 : Int) (p.2 : Int) (g (p.1 : Int) (p.2 : Int)))
        m).numCols = m.numCols := by
  induction ps generalizing m with
  | nil => rfl
  | cons q qs ih => exact ih _

theorem sget_foldl_set (g : Int → Int → Int) (ps : List (Nat × Nat)) (m : SparseMatrix)
    (i j : Int) :
    sget ((ps.foldl
        (fun res p => res.set_element (p.1 : Int) (p.2 : Int) (g (p.1 : Int) (p.2 : Int)))
        m).matrix) i j
      = if ∃ p ∈ ps, ((p.1 : Int) = i ∧ (p.2 : Int) = j) then some (g i j)
        else sget m.matrix i j := by
  induction ps generalizing m with
  | nil => simp
  | cons q qs ih =>
    rw [List.foldl_cons, ih]
    by_cases hqs : ∃ p ∈ qs, ((p.1 : Int) = i ∧ (p.2 : Int) = j)
    · rw [if_pos hqs]
      obtain ⟨p, hp, hpe⟩ := hqs
      rw [if_pos ⟨p, List.mem_cons_of_mem _ hp, hpe⟩]
    · rw [if_neg hqs]
      by_cases hq : ((q.1 : Int) = i ∧ (q.2 : Int) = j)
      · obtain ⟨h1, h2⟩ := hq
        subst h1; subst h2
        rw [if_pos ⟨q, List.mem_cons_self q qs, rfl, rfl⟩]
        exact sget_storeSet_self m.matrix _ _ _
      · rw [if_neg ?_]
        · exact sget_storeSet_ne m.matrix _ _ _ i j
            (fun hc => hq ⟨hc.1.symm, hc.2.symm⟩)
        · rintro ⟨p, hp, hpe⟩
          rcases List.mem_cons.mp hp with rfl | hp'
          · exact hq hpe
          · exact hqs ⟨p, hp', hpe⟩

theorem add_numRows (a b : SparseMatrix) : (a.add b).numRows = a.numRows :=
  foldl_set_numRows (fun x y => a.get_element x y + b.get_element x y) _ _

theorem add_numCols (a b : SparseMatrix) : (a.add b).numCols = a.numCols :=
  foldl_set_numCols (fun x y => a.get_element x y + b.get_element x y) _ _

theorem sub_numRows (a b : SparseMatrix) : (a.subtract b).numRows = a.numRows :=
  foldl_set_numRows (fun x y => a.get_element x y - b.get_element x y) _ _

theorem sub_numCols (a b : SparseMatrix) : (a.subtract b).numCols = a.numCols :=
  foldl_set_numCols (fun x y => a.get_element x y - b.get_element x y) _ _

theorem grid_mem_of_bounds (R C : Int) (i j : Int) (h1 : 0 ≤ i) (h2 : i < R)
    (h3 : 0 ≤ j) (h4 : j < C) :
    ∃ p ∈ grid R.toNat C.toNat, ((p.1 : Int) = i ∧ (p.2 : Int) = j) := by
  refine ⟨(i.toNat, j.toNat), ?_, ?_, ?_⟩
  · rw [mem_grid]
    constructor <;> omega
  · simp only
    omega
  · simp only
    omega

theorem add_sget (a b : SparseMatrix) (i j : Int) (h1 : 0 ≤ i) (h2 : i < a.numRows)
    (h3 : 0 ≤ j) (h4 : j < a.numCols) :
    sget (a.add b).matrix i j = some (a.get_element i j + b.get_element i j) := by
  have hmem := grid_mem_of_bounds a.numRows a.numCols i j h1 h2 h3 h4
  have h := sget_foldl_set (fun x y => a.get_element x y + b.get_element x y)
    (grid a.numRows.toNat a.numCols.toNat) (initWithDims a.numRows a.numCols) i j
  rw [if_pos hmem] at h
  exact h

theorem sub_sget (a b : SparseMatrix) (i j : Int) (h1 : 0 ≤ i) (h2 : i < a.numRows)
    (h3 : 0 ≤ j) (h4 : j < a.numCols) :
    sget (a.subtract b).matrix i j = some (a.get_element i j - b.get_element i j) := by
  have hmem := grid_mem_of_bounds a.numRows a.numCols i j h1 h2 h3 h4
  have h := sget_foldl_set (fun x y => a.get_element x y - b.get_element x y)
    (grid a.numRows.toNat a.numCols.toNat) (initWithDims a.numRows a.numCols) i j
  rw [if_pos hmem] at h
  exact h

/-! ### Characterization of load and of the file-mode constructor -/

theorem loadEntries_isSome (ls : List String) (st : Store) :
    (loadEntries st ls).isSome
      ↔ ∀ l ∈ ls, pyStrip l.data ≠ [] → (parse_entry l).isSome := by
  induction ls generalizing st with
  | nil => simp [loadEntries]
  | cons line rest ih =>
    by_cases hb : pyStrip line.data = []
    · simp [loadEntries, hb, ih]
    · cases hp : parse_entry line with
      | none => simp [loadEntries, hb, hp]
      | some t =>
        obtain ⟨r, c, v⟩ := t
        simp [loadEntries, hb, hp, ih]

theorem load_matrix_error_iff (lines : List String) :
    load_matrix lines = Except.error () ↔ ¬ loadAccepts lines := by
  cases lines with
  | nil => simp [load_matrix, loadAccepts]
  | cons l1 t =>
    cases t with
    | nil => simp [load_matrix, loadAccepts]
    | cons l2 rest =>
      cases h1 : parseHeader l1 with
      | none => simp [load_matrix, loadAccepts, h1]
      | some r1 =>
        cases h2 : parseHeader l2 with
        | none => simp [load_matrix, loadAccepts, h1, h2]
        | some r2 =>
          have hc := loadEntries_isSome rest []
          cases hle : loadEntries [] rest with
          | none =>
            rw [hle] at hc
            simp only [Option.isSome_none, Bool.false_eq_true, false_iff] at hc
            simp [load_matrix, loadAccepts, h1, h2, hle, hc]
          | some st =>
            rw [hle] at hc
            simp only [Option.isSome_some, true_iff] at hc
            simp only [load_matrix, loadAccepts, h1, h2, hle]
            refine iff_of_false (by simp) (fun hno => ?_)
            refine hno ⟨by simp, by simp, fun l hl hbl => ?_⟩
            exact hc l hl hbl

theorem initFromFile_dims (lines : List String) (m : SparseMatrix)
    (h : initFromFile lines = Except.ok m) :
    m.numRows = m.get_element 0 0 ∧ m.numCols = m.get_element 0 1 := by
  unfold initFromFile at h
  cases hl : load_matrix lines with
  | error e => rw [hl] at h; cases h
  | ok t =>
    obtain ⟨st, r, c⟩ := t
    rw [hl] at h
    injection h with h
    subst h
    constructor
    · show (dget ((dget st 0).getD []) 0).getD 0 = _
      unfold SparseMatrix.get_element
      cases dget st 0 <;> simp [dget]
    · show (dget ((dget st 0).getD []) 1).getD 0 = _
      unfold SparseMatrix.get_element
      cases dget st 0 <;> simp [dget]

theorem multiply_error_iff (a b : SparseMatrix) :
    a.multiply b = Except.error () ↔ a.numCols ≠ b.numRows := by
  unfold SparseMatrix.multiply
  by_cases h : a.numCols = b.numRows <;> simp [h]

/-! ### Claim theorems -/

/-- C1: evaluation of the spec §8 property 7 scenario on the code. Loading
the two files gives `matA` with dimensions (1, 2) and `matB` with (5, 0) —
the file-mode constructor takes them from the entries at (0,0)/(0,1), not
from the headers — so `A.add(B)` stores only the two cells (0,0) ↦ 6 and
(0,1) ↦ 2, stores nothing at (1,1), and `A.multiply(B)` raises because
2 ≠ 5. This contradicts the claimed full 2×2 sum and claimed product. -/
theorem spec_scenario_c1 :
    initFromFile fileA = Except.ok matA ∧
    initFromFile fileB = Except.ok matB ∧
    matA.numRows = 1 ∧ matA.numCols = 2 ∧ matB.numRows = 5 ∧ matB.numCols = 0 ∧
    (matA.add matB).matrix = [(0, [(0, 6), (1, 2)])] ∧
    sget (matA.add matB).matrix 1 1 = none ∧
    matA.multiply matB = Except.error () := by decide

/-- C2: after every successful file-mode construction, `numRows` equals the
stored entry value at logical position (0,0) if present and 0 otherwise,
and `numCols` likewise at (0,1); the second conjunct exhibits a load whose
header-declared dimensions (3, 4) differ from the constructed (1, 2). -/
theorem file_mode_dims_c2 :
    (∀ lines m, initFromFile lines = Except.ok m →
      m.numRows = m.get_element 0 0 ∧ m.numCols = m.get_element 0 1) ∧
    (∃ st r c, load_matrix hdrFile = Except.ok (st, r, c) ∧
      initFromFile hdrFile = Except.ok matHdr ∧
      matHdr.numRows ≠ r ∧ matHdr.numCols ≠ c) :=
  ⟨initFromFile_dims,
   ⟨[(0, [(0, 1), (1, 2)])], 3, 4, by decide, by decide, by decide, by decide⟩⟩

/-- C2 witness: the general part of `file_mode_dims_c2` applied to the
concrete file `hdrFile`. -/
theorem file_mode_dims_c2_witness :
    matHdr.numRows = matHdr.get_element 0 0 ∧ matHdr.numCols = matHdr.get_element 0 1 :=
  file_mode_dims_c2.1 hdrFile matHdr (by decide)

/-- C3: for matrices of equal dimensions and any in-range position (i, j),
`A.add(B).get(i, j) = A.get(i, j) + B.get(i, j)`. -/
theorem add_pointwise_c3 (a b : SparseMatrix)
    (hr : a.numRows = b.numRows) (hc : a.numCols = b.numCols)
    (i j : Int) (h1 : 0 ≤ i) (h2 : i < a.numRows) (h3 : 0 ≤ j) (h4 : j < a.numCols) :
    (a.add b).get_element i j = a.get_element i j + b.get_element i j := by
  rw [get_element_eq_sget, add_sget a b i j h1 h2 h3 h4]
  rfl

/-- C3 witness: `add_pointwise_c3` at the concrete 2×2 matrices `cA3` and
`cB3` and position (0, 1), where the sum evaluates to 7. -/
theorem add_pointwise_c3_witness :
    (cA3.add cB3).get_element 0 1 = cA3.get_element 0 1 + cB3.get_element 0 1 ∧
    cA3.get_element 0 1 + cB3.get_element 0 1 = 7 :=
  ⟨add_pointwise_c3 cA3 cB3 rfl rfl 0 1 (by decide) (by decide) (by decide) (by decide),
   by decide⟩

/-- C4: `multiply` raises exactly when `self.numCols ≠ other.numRows`; in
the embedding the error is returned by the guard before the result is
built, so no cell of a result is computed, and when the inner dimensions
agree the operation never fails for that reason. -/
theorem multiply_dim_check_c4 (a b : SparseMatrix) :
    a.multiply b = Except.error () ↔ a.numCols ≠ b.numRows :=
  multiply_error_iff a b

/-- C5: evaluation of save-then-load on the 2×3 matrix `mRT` holding the
single entry (0,0) ↦ 7. The entry store round-trips identically, but the
reconstructed matrix has dimensions (7, 0), not (2, 3): file-mode
construction takes its dimensions from the entries at (0,0)/(0,1), so the
claimed round-trip of (r, c) fails. -/
theorem roundtrip_c5 :
    mRT.numRows = 2 ∧ mRT.numCols = 3 ∧
    mRT.save_to_file = ["rows=2", "cols=3", "(0, 0, 7)"] ∧
    initFromFile mRT.save_to_file
      = Except.ok { matrix := [(0, [(0, 7)])], numRows := 7, numCols := 0 } ∧
    mRT.matrix = [(0, [(0, 7)])] := by decide

/-- C6 counterexample: a data line with four comma-separated components is
accepted by `load_matrix` — the entry (0, 0) ↦ 1 is stored and the fourth
component ignored — contradicting the claim that a line that does not
split into exactly three integer components makes the load fail. -/
theorem load_fourfield_c6_counterexample :
    (pySplit ',' (((pyStrip "(0,0,1,9)".data).drop 1).dropLast)).length = 4 ∧
    load_matrix fourFieldFile = Except.ok ([(0, [(0, 1)])], 2, 2) := by decide

/-- C6 (amended): `load_matrix` fails — always with the one uniform
wrong-format error — exactly when the header lines are missing or
unparsable, or some nonblank data line's first three comma-separated
components do not all parse as integers (fewer than three components, or
a non-integer among the first three); extra components beyond the third
are ignored rather than rejected. -/
theorem load_failure_c6 (lines : List String) :
    load_matrix lines = Except.error () ↔ ¬ loadAccepts lines :=
  load_matrix_error_iff lines

/-- C7: for all matrices, with no dimension check, `add` and `subtract`
return a result carrying `self`'s dimensions in which every cell of the
full grid is explicitly stored (a `some` in the store, zero values
included), the stored value reading missing positions of either operand —
in particular out-of-range positions of `other` — as zero via `get`. -/
theorem add_sub_shape_c7 (a b : SparseMatrix) :
    (a.add b).numRows = a.numRows ∧ (a.add b).numCols = a.numCols ∧
    (a.subtract b).numRows = a.numRows ∧ (a.subtract b).numCols = a.numCols ∧
    (∀ i j : Int, 0 ≤ i → i < a.numRows → 0 ≤ j → j < a.numCols →
      sget (a.add b).matrix i j = some (a.get_element i j + b.get_element i j)) ∧
    (∀ i j : Int, 0 ≤ i → i < a.numRows → 0 ≤ j → j < a.numCols →
      sget (a.subtract b).matrix i j = some (a.get_element i j - b.get_element i j)) :=
  ⟨add_numRows a b, add_numCols a b, sub_numRows a b, sub_numCols a b,
   fun i j h1 h2 h3 h4 => add_sget a b i j h1 h2 h3 h4,
   fun i j h1 h2 h3 h4 => sub_sget a b i j h1 h2 h3 h4⟩

/-- C7 witness: `add_sub_shape_c7` applied to the 2×2 matrix `cA7` and the
dimension-mismatched 1×1 matrix `cB7` at position (1, 1), out of range for
`cB7` and zero in both operands: the zero sum is explicitly stored. -/
theorem add_sub_shape_c7_witness :
    cA7.numRows ≠ cB7.numRows ∧
    sget (cA7.add cB7).matrix 1 1 = some (cA7.get_element 1 1 + cB7.get_element 1 1) ∧
    cA7.get_element 1 1 + cB7.get_element 1 1 = 0 :=
  ⟨by decide,
   (add_sub_shape_c7 cA7 cB7).2.2.2.2.1 1 1 (by decide) (by decide) (by decide) (by decide),
   by decide⟩

/-- C8: for every matrix, any integer row and column, and any value v
(including 0), `set` followed by `get` at the same position returns v, and
a zero assignment stores an explicit zero entry rather than deleting the
key. -/
theorem set_get_c8 (m : SparseMatrix) (row col v : Int) :
    (m.set_element row col v).get_element row col = v ∧
    sget (m.set_element row col 0).matrix row col = some 0 := by
  constructor
  · rw [get_element_eq_sget]
    show (sget (storeSet m.matrix row col v) row col).getD 0 = v
    rw [sget_storeSet_self]
    rfl
  · exact sget_storeSet_self m.matrix row col 0

/-- C10: `set_element` modifies only the targeted cell: every other
position reads the same value before and after, and the dimensions are
unchanged. -/
theorem set_frame_c10 (m : SparseMatrix) (row col v r c : Int)
    (h : ¬(r = row ∧ c = col)) :
    (m.set_element row col v).get_element r c = m.get_element r c ∧
    (m.set_element row col v).numRows = m.numRows ∧
    (m.set_element row col v).numCols = m.numCols := by
  refine ⟨?_, rfl, rfl⟩
  rw [get_element_eq_sget, get_element_eq_sget]
  show (sget (storeSet m.matrix row col v) r c).getD 0 = _
  rw [sget_storeSet_ne m.matrix row col v r c h]

/-- C10 witness: `set_frame_c10` at the concrete matrix `mX`, writing cell
(1, 1) and observing cell (0, 0). -/
theorem set_frame_c10_witness :
    ¬((0 : Int) = 1 ∧ (0 : Int) = 1) ∧
    ((mX.set_element 1 1 9).get_element 0 0 = mX.get_element 0 0 ∧
     (mX.set_element 1 1 9).numRows = mX.numRows ∧
     (mX.set_element 1 1 9).numCols = mX.numCols) :=
  ⟨by decide, set_frame_c10 mX 1 1 9 0 0 (by decide)⟩

end SpMatrix
